import Mathlib

/-!
Shallow embedding of the model-cascade retry wrapper of the pulmoAi
backend (backend/routes/chatbot.js and the Gemini integration module it
loads), together with the chatbot HTTP route's fallback logic.

JavaScript strings are modelled as Lean `String`; `String.prototype.includes`
is modelled as substring containment on the character list.  A thrown JS
`Error` is modelled by its `message` string, so a caller-supplied operation
is a function `String → Except String α` from the candidate model name to
either a thrown message or a result.  The cascade's observable invocation
behaviour is captured by instrumenting the loop with a trace: the ordered
list of candidate names on which the operation was invoked.
-/

namespace PulmoAI

set_option maxRecDepth 8192

/-- JS `s.trim()`: drop leading and trailing whitespace (modelled on the
character list so that it evaluates by kernel reduction). -/
def jsTrim (s : String) : String :=
  ⟨((s.toList.dropWhile Char.isWhitespace).reverse.dropWhile
      Char.isWhitespace).reverse⟩

/-- JS `s.toLowerCase()` on the ASCII strings this code handles. -/
def jsToLower (s : String) : String :=
  ⟨s.toList.map Char.toLower⟩

/-- Scan for `pat` as a contiguous run inside a character list. -/
def jsIncludesAux (pat : List Char) : List Char → Bool
  | [] => pat.isEmpty
  | c :: rest => pat.isPrefixOf (c :: rest) || jsIncludesAux pat rest

/-- JS `s.includes(pat)`: `pat` occurs as a contiguous substring of `s`. -/
def jsIncludes (s pat : String) : Bool :=
  jsIncludesAux pat.toList s.toList

/-- Source `isQuotaError` (geminiAI module): message contains one of the four
quota markers, checked in source order. -/
def isQuotaError (msg : String) : Bool :=
  jsIncludes msg "429" || jsIncludes msg "Too Many" || jsIncludes msg "quota" ||
    jsIncludes msg "RESOURCE_EXHAUSTED"

/-- Source `isNotFoundError`: message contains "404" or "not found". -/
def isNotFoundError (msg : String) : Bool :=
  jsIncludes msg "404" || jsIncludes msg "not found"

/-- The three-way failure classification of the spec's data model. -/
inductive FailureClassification : Type where
  | transientQuota : FailureClassification
  | notFound : FailureClassification
  | fatal : FailureClassification
deriving DecidableEq, Repr

/-- Classification as the cascade applies it: the guard in `tryModels` is
`isQuotaError(err) || isNotFoundError(err)` with `isQuotaError` evaluated
first, and everything else is rethrown (fatal). -/
def classify (msg : String) : FailureClassification :=
  if isQuotaError msg then .transientQuota
  else if isNotFoundError msg then .notFound
  else .fatal

/-- The reason string pushed onto the `errors` accumulator for a skipped
candidate (source line `errors.push(...)`): it is chosen by
`err.message.includes('429')`, not by the full classification. -/
def recordedReason (msg : String) : String :=
  if jsIncludes msg "429" then "quota exceeded" else "not found"

/-- Outcome of one cascade invocation.  `success` is a normal return,
`fatal` is the original error rethrown unchanged mid-cascade, and
`exhausted` is the newly constructed aggregate `Error` thrown after the
loop ends; it carries the synthesized message. -/
inductive CascadeOutcome (α : Type) : Type where
  | success (result : α) (modelName : String) : CascadeOutcome α
  | fatal (msg : String) : CascadeOutcome α
  | exhausted (msg : String) : CascadeOutcome α
deriving DecidableEq, Repr

/-- The aggregate error message template built after the loop in `tryModels`. -/
def aggregateMessage (errors : List String) : String :=
  "All Gemini models quota-exceeded. Please wait a minute and try again.\n" ++
  "Details: " ++ String.intercalate " | " errors ++ "\n" ++
  "Free tier allows 15–30 req/min. If you sent many requests in a row, wait 60 seconds."

/-- Loop of `tryModels`, instrumented with the invocation trace.  The first
component is the outcome; the second lists, in order, the candidates on
which `fn` was invoked (one entry per loop iteration that reached the
`await fn(...)` call). -/
def tryModelsGo (fn : String → Except String α) :
    List String → List String → CascadeOutcome α × List String
  | [], errors => (.exhausted (aggregateMessage errors), [])
  | m :: rest, errors =>
    match fn m with
    | .ok r => (.success r m, [m])
    | .error msg =>
      if isQuotaError msg || isNotFoundError msg then
        let next := tryModelsGo fn rest (errors ++ [m ++ ": " ++ recordedReason msg])
        (next.1, m :: next.2)
      else
        (.fatal msg, [m])

/-- Source `tryModels(models, fn)`: try each model in turn, skip on
quota/not-found, rethrow otherwise, aggregate when exhausted. -/
def tryModels (models : List String) (fn : String → Except String α) :
    CascadeOutcome α × List String :=
  tryModelsGo fn models []

/-- Model priority list for CT-scan analysis (source `VISION_MODELS`). -/
def VISION_MODELS : List String :=
  ["gemini-2.0-flash", "gemini-2.0-flash-lite", "gemini-2.5-flash",
   "gemini-flash-lite-latest"]

/-- Model priority list for the chatbot (source `CHAT_MODELS`). -/
def CHAT_MODELS : List String :=
  ["gemini-2.0-flash", "gemini-2.0-flash-lite", "gemini-2.5-flash",
   "gemini-flash-lite-latest"]

/-- JS truthiness-and-placeholder check on `process.env.GEMINI_API_KEY`:
the key is configured when it is present, non-empty (JS falsiness of the
empty string) and differs from the placeholder. -/
def geminiKeyConfigured : Option String → Bool
  | none => false
  | some k => (k != "") && (k != "YOUR_GEMINI_API_KEY_HERE")

/-- Outcome of `analyzeCTScan` / `getChatbotResponse` up to and including the
cascade: either the configuration guard throws before any model is tried
(`configError`), or the cascade runs and its outcome is passed through. -/
inductive GeminiOutcome (α : Type) : Type where
  | configError (msg : String) : GeminiOutcome α
  | success (result : α) (modelName : String) : GeminiOutcome α
  | fatal (msg : String) : GeminiOutcome α
  | exhausted (msg : String) : GeminiOutcome α
deriving DecidableEq, Repr

/-- Embed a cascade outcome into a Gemini-call outcome. -/
def liftCascade : CascadeOutcome α → GeminiOutcome α
  | .success r m => .success r m
  | .fatal msg => .fatal msg
  | .exhausted msg => .exhausted msg

/-- Message of the error thrown by `getChatbotResponse` when the key is
missing or the placeholder. -/
def chatbotConfigErrorMsg : String := "GEMINI_API_KEY not configured"

/-- Message of the error thrown by `analyzeCTScan` when the key is missing
or the placeholder. -/
def visionConfigErrorMsg : String :=
  "GEMINI_API_KEY is not configured. Please add your API key to backend/.env. " ++
  "Get a FREE key at https://aistudio.google.com/app/apikey"

/-- Source `getChatbotResponse`, modelled up to the cascade: check the key
guard, then run `tryModels` over `CHAT_MODELS` with the caller-shaped chat
operation `fn` (the response-text extraction on success is the identity on
the operation's result here).  The second component is the cascade's
invocation trace (empty when the guard throws). -/
def getChatbotResponse (key : Option String) (fn : String → Except String α) :
    GeminiOutcome α × List String :=
  if geminiKeyConfigured key then
    let run := tryModels CHAT_MODELS fn
    (liftCascade run.1, run.2)
  else
    (.configError chatbotConfigErrorMsg, [])

/-- Source `analyzeCTScan`, modelled up to the cascade: check the key guard,
then run `tryModels` over `VISION_MODELS` with the vision operation `fn`.
The JSON post-processing of the raw response is outside the cascade and not
needed by the claims.  The second component is the invocation trace. -/
def analyzeCTScan (key : Option String) (fn : String → Except String α) :
    GeminiOutcome α × List String :=
  if geminiKeyConfigured key then
    let run := tryModels VISION_MODELS fn
    (liftCascade run.1, run.2)
  else
    (.configError visionConfigErrorMsg, [])

/-- The rule-based knowledge base of backend/routes/chatbot.js: keyword
lists paired with canned responses, in source order. -/
def knowledgeBase : List (List String × String) :=
  [ (["what is", "lung nodule", "pulmonary nodule"],
     "A lung nodule (or pulmonary nodule) is a small, round or oval-shaped growth in the lung. " ++
     "Most lung nodules are benign (non-cancerous), but some can be malignant. They are typically " ++
     "detected on chest X-rays or CT scans and are usually smaller than 3 cm in diameter."),
    (["benign", "non-cancerous", "not cancer"],
     "Benign means non-cancerous. A benign nodule will not spread to other parts of the body. " ++
     "However, it still requires monitoring through regular follow-up scans. Common causes include " ++
     "old infections, inflammation, or harmless growths. Your doctor will recommend a monitoring schedule."),
    (["malignant", "cancerous", "cancer", "lung cancer"],
     "Malignant means cancerous. A malignant nodule has the potential to spread to other parts of the body. " ++
     "If detected, further diagnostic tests such as biopsy, PET scan, or additional imaging will be needed. " ++
     "Early detection significantly improves treatment outcomes. Please consult an oncologist immediately."),
    (["causes", "why", "risk factors", "smoking"],
     "Lung nodules can be caused by various factors including: smoking (primary risk factor), " ++
     "exposure to asbestos or radon, previous lung infections (tuberculosis, fungal infections), " ++
     "inflammation, scar tissue, or benign tumors."),
    (["symptoms", "signs", "feel", "pain"],
     "Most small lung nodules cause NO symptoms and are found incidentally during imaging for other reasons. " ++
     "Larger nodules or cancerous ones may cause: persistent cough, coughing up blood, chest pain, " ++
     "shortness of breath, unexplained weight loss, or fatigue."),
    (["treatment", "cure", "therapy", "surgery"],
     "Treatment depends on the nodule characteristics:\n\n" ++
     "• Benign small nodules: Regular monitoring with CT scans\n" ++
     "• Suspicious nodules: May require biopsy or PET scan\n" ++
     "• Malignant nodules: Surgery, radiation, chemotherapy, or targeted therapy"),
    (["ct scan", "x-ray", "imaging"],
     "A CT scan uses X-rays to create detailed cross-sectional images of your lungs. " ++
     "It can detect nodules as small as 1-2mm. The scan is painless and typically takes 5-10 minutes."),
    (["hello", "hi", "hey"],
     "Hello! I\x27m your AI Medical Assistant powered by Google Gemini. " ++
     "I can answer questions about pulmonary nodules, CT scans, treatment options, and more. " ++
     "How can I help you today?") ]

/-- Source `defaultFallbackResponse`. -/
def defaultFallbackResponse : String :=
  "I\x27m sorry, I couldn\x27t process that with the AI engine right now. " ++
  "Please ask about lung nodules, symptoms, treatments, CT scans, or prevention strategies."

/-- Source `getRuleBasedResponse`: lowercase and trim the message, return the
response of the first knowledge-base entry one of whose keywords occurs in
it, else the default fallback. -/
def getRuleBasedResponse (message : String) : String :=
  let lower := jsTrim (jsToLower message)
  match knowledgeBase.find? (fun e => e.1.any (fun k => jsIncludes lower (jsToLower k))) with
  | some e => e.2
  | none => defaultFallbackResponse

/-- The JSON body (plus HTTP status) produced by the POST /api/chatbot
handler; the `timestamp` field is wall-clock output and not modelled. -/
structure ChatbotHttpResponse : Type where
  status : Nat
  success : Bool
  error : Option String
  reply : String
  engine : Option String
deriving DecidableEq, Repr

/-- The POST /api/chatbot handler: validate the message, then use Gemini
when the key is configured — falling back to the rule-based reply if the
Gemini call throws — and the rule-based reply directly otherwise. -/
def chatbotHandler (message : String) (key : Option String)
    (fn : String → Except String String) : ChatbotHttpResponse :=
  if jsTrim message = "" then
    { status := 400, success := false, error := some "No message provided",
      reply := "Please send a message.", engine := none }
  else if message.length > 1000 then
    { status := 400, success := false, error := some "Message too long",
      reply := "Please keep your question under 1000 characters.", engine := none }
  else if geminiKeyConfigured key then
    match getChatbotResponse key fn with
    | (.success r _, _) =>
      { status := 200, success := true, error := none, reply := r,
        engine := some "gemini" }
    | _ =>
      { status := 200, success := true, error := none,
        reply := getRuleBasedResponse message, engine := some "rule-based" }
  else
    { status := 200, success := true, error := none,
      reply := getRuleBasedResponse message, engine := some "rule-based" }

/-- Concrete operation failing with a 429 on candidate "a", succeeding on
any other candidate. -/
def opC1 : String → Except String String :=
  fun m => if m = "a" then Except.error "429 rate limited" else Except.ok "R"

/-- Concrete operation always failing with a fatal (unclassified) message. -/
def opC2 : String → Except String String :=
  fun _ => Except.error "invalid request schema"

/-- Concrete operation always failing with "RESOURCE_EXHAUSTED". -/
def opC3 : String → Except String String :=
  fun _ => Except.error "RESOURCE_EXHAUSTED"

/-- Concrete operation always failing with a plain 429 message. -/
def opC5 : String → Except String String :=
  fun _ => Except.error "429"

/-- Concrete operation failing with a message matching both the quota and
the not-found markers. -/
def opC8 : String → Except String String :=
  fun _ => Except.error "quota: model not found (404)"

/-- Concrete operation always failing with an unclassified message. -/
def opC9 : String → Except String String :=
  fun _ => Except.error "bad"

/-- Concrete vision operation that would succeed if ever invoked. -/
def opC10v : String → Except String String :=
  fun _ => Except.ok "report"

/-- Concrete chat operation that would succeed if ever invoked. -/
def opC10c : String → Except String String :=
  fun _ => Except.ok "reply"

/-- Unfolding of the loop at a skipped candidate: a quota/not-found failure
pushes the formatted reason and continues with the rest of the list. -/
theorem tryModelsGo_cons_skip (fn : String → Except String α) (m : String)
    (rest errors : List String) (msg : String) (hm : fn m = .error msg)
    (hskip : (isQuotaError msg || isNotFoundError msg) = true) :
    tryModelsGo fn (m :: rest) errors =
      ((tryModelsGo fn rest (errors ++ [m ++ ": " ++ recordedReason msg])).1,
       m :: (tryModelsGo fn rest (errors ++ [m ++ ": " ++ recordedReason msg])).2) := by
  simp [tryModelsGo, hm, hskip]

/-- The invocation trace does not depend on the error accumulator. -/
theorem tryModelsGo_trace_congr (fn : String → Except String α) (ms : List String) :
    ∀ e₁ e₂ : List String, (tryModelsGo fn ms e₁).2 = (tryModelsGo fn ms e₂).2 := by
  induction ms with
  | nil => intro e₁ e₂; rfl
  | cons m rest ih =>
    intro e₁ e₂
    cases hm : fn m with
    | ok r => simp [tryModelsGo, hm]
    | error msg =>
      by_cases hskip : (isQuotaError msg || isNotFoundError msg) = true
      · rw [tryModelsGo_cons_skip fn m rest e₁ msg hm hskip,
          tryModelsGo_cons_skip fn m rest e₂ msg hm hskip]
        exact congrArg (List.cons m) (ih _ _)
      · simp [tryModelsGo, hm, hskip]

/-- If every candidate fails with a skippable error (its message given by
`e`), the loop consumes the whole list, records each candidate's formatted
reason in order, and produces the aggregate error. -/
theorem tryModelsGo_all_skip (fn : String → Except String α) (e : String → String)
    (ms : List String)
    (h : ∀ m ∈ ms, fn m = .error (e m) ∧
      (isQuotaError (e m) || isNotFoundError (e m)) = true) :
    ∀ errors : List String,
      tryModelsGo fn ms errors =
        (.exhausted (aggregateMessage
            (errors ++ ms.map (fun m => m ++ ": " ++ recordedReason (e m)))), ms) := by
  induction ms with
  | nil => intro errors; simp [tryModelsGo]
  | cons m rest ih =>
    intro errors
    obtain ⟨hm, hskip⟩ := h m (by simp)
    rw [tryModelsGo_cons_skip fn m rest errors (e m) hm hskip,
      ih (fun x hx => h x (by simp [hx]))]
    simp

/-- If every candidate before `last` fails with a skippable error and `last`
succeeds with `r`, the loop returns `(r, last)` after invoking the operation
on every candidate, in order. -/
theorem tryModelsGo_skip_then_ok (fn : String → Except String α) (e : String → String)
    (init : List String) (last : String) (r : α)
    (h : ∀ m ∈ init, fn m = .error (e m) ∧
      (isQuotaError (e m) || isNotFoundError (e m)) = true)
    (hl : fn last = .ok r) :
    ∀ errors : List String,
      tryModelsGo fn (init ++ [last]) errors = (.success r last, init ++ [last]) := by
  induction init with
  | nil => intro errors; simp [tryModelsGo, hl]
  | cons m rest ih =>
    intro errors
    obtain ⟨hm, hskip⟩ := h m (by simp)
    rw [List.cons_append, tryModelsGo_cons_skip fn m (rest ++ [last]) errors (e m) hm hskip,
      ih (fun x hx => h x (by simp [hx]))]

/-- The invocation trace is always a prefix of the candidate list. -/
theorem tryModelsGo_trace_prefix (fn : String → Except String α) (ms : List String) :
    ∀ errors : List String, ∃ t, ms = (tryModelsGo fn ms errors).2 ++ t := by
  induction ms with
  | nil => intro errors; exact ⟨[], rfl⟩
  | cons m rest ih =>
    intro errors
    cases hm : fn m with
    | ok r => exact ⟨rest, by simp [tryModelsGo, hm]⟩
    | error msg =>
      by_cases hskip : (isQuotaError msg || isNotFoundError msg) = true
      · obtain ⟨t, ht⟩ := ih (errors ++ [m ++ ": " ++ recordedReason msg])
        refine ⟨t, ?_⟩
        rw [tryModelsGo_cons_skip fn m rest errors msg hm hskip]
        simpa using ht
      · exact ⟨rest, by simp [tryModelsGo, hm, hskip]⟩

/-- An exhausted outcome means the whole list was consumed: every candidate
was invoked (the trace is the full list) and every candidate failed with a
skippable error. -/
theorem tryModelsGo_exhausted_inv (fn : String → Except String α) (ms : List String) :
    ∀ (errors : List String) (msg : String),
      (tryModelsGo fn ms errors).1 = .exhausted msg →
      (tryModelsGo fn ms errors).2 = ms ∧
      ∀ m ∈ ms, ∃ s, fn m = .error s ∧ (isQuotaError s || isNotFoundError s) = true := by
  induction ms with
  | nil => intro errors msg _; exact ⟨rfl, by simp⟩
  | cons m rest ih =>
    intro errors msg hout
    cases hm : fn m with
    | ok r => rw [show tryModelsGo fn (m :: rest) errors = (.success r m, [m]) by
        simp [tryModelsGo, hm]] at hout; exact absurd hout (by simp)
    | error s =>
      by_cases hskip : (isQuotaError s || isNotFoundError s) = true
      · rw [tryModelsGo_cons_skip fn m rest errors s hm hskip] at hout ⊢
        obtain ⟨htr, hall⟩ :=
          ih (errors ++ [m ++ ": " ++ recordedReason s]) msg hout
        refine ⟨by simpa using htr, ?_⟩
        intro x hx
        rcases List.mem_cons.mp hx with hx | hx
        · exact ⟨s, by rw [hx]; exact hm, hskip⟩
        · exact hall x hx
      · rw [show tryModelsGo fn (m :: rest) errors = (.fatal s, [m]) by
          simp [tryModelsGo, hm, hskip]] at hout; exact absurd hout (by simp)

/-- A fatal outcome means some invoked candidate threw exactly the
propagated message, and that message matches neither skip predicate. -/
theorem tryModelsGo_fatal_inv (fn : String → Except String α) (ms : List String) :
    ∀ (errors : List String) (msg : String),
      (tryModelsGo fn ms errors).1 = .fatal msg →
      ∃ m ∈ ms, fn m = .error msg ∧
        isQuotaError msg = false ∧ isNotFoundError msg = false := by
  induction ms with
  | nil => intro errors msg hout; exact absurd hout (by simp [tryModelsGo])
  | cons m rest ih =>
    intro errors msg hout
    cases hm : fn m with
    | ok r => rw [show tryModelsGo fn (m :: rest) errors = (.success r m, [m]) by
        simp [tryModelsGo, hm]] at hout; exact absurd hout (by simp)
    | error s =>
      by_cases hskip : (isQuotaError s || isNotFoundError s) = true
      · rw [tryModelsGo_cons_skip fn m rest errors s hm hskip] at hout
        obtain ⟨x, hx, hfx⟩ := ih (errors ++ [m ++ ": " ++ recordedReason s]) msg hout
        exact ⟨x, List.mem_cons_of_mem m hx, hfx⟩
      · rw [show tryModelsGo fn (m :: rest) errors = (.fatal s, [m]) by
          simp [tryModelsGo, hm, hskip]] at hout
        refine ⟨m, by simp, ?_⟩
        have hs : s = msg := by simpa using hout
        subst hs
        simp only [Bool.or_eq_true, not_or, Bool.not_eq_true] at hskip
        exact ⟨hm, hskip.1, hskip.2⟩

/-- The cascade classifies a message as transient-quota exactly when the
quota predicate holds (it is checked first). -/
theorem classify_eq_transientQuota (msg : String) :
    classify msg = FailureClassification.transientQuota ↔ isQuotaError msg = true := by
  unfold classify
  by_cases h : isQuotaError msg = true
  · simp [h]
  · by_cases h2 : isNotFoundError msg = true <;> simp [h, h2]

/-- The cascade classifies a message as not-found exactly when the quota
predicate fails and the not-found predicate holds. -/
theorem classify_eq_notFound (msg : String) :
    classify msg = FailureClassification.notFound ↔
      isQuotaError msg = false ∧ isNotFoundError msg = true := by
  unfold classify
  by_cases h : isQuotaError msg = true
  · simp [h]
  · by_cases h2 : isNotFoundError msg = true <;> simp [h, h2]

/-- The cascade classifies a message as fatal exactly when both predicates
fail. -/
theorem classify_eq_fatal (msg : String) :
    classify msg = FailureClassification.fatal ↔
      isQuotaError msg = false ∧ isNotFoundError msg = false := by
  unfold classify
  by_cases h : isQuotaError msg = true
  · simp [h]
  · by_cases h2 : isNotFoundError msg = true <;> simp [h, h2]

/-- Claim C1: for a candidate list whose first N-1 entries all fail with a
transient-quota error and whose last entry succeeds, `tryModels` returns the
last candidate's result paired with its name, and the operation is invoked
exactly N times, once per candidate, in list order (the trace is the whole
list). -/
theorem claim_C1_quota_prefix_success_last {α : Type} (init : List String)
    (last : String) (fn : String → Except String α) (e : String → String) (r : α)
    (hinit : ∀ m ∈ init, fn m = Except.error (e m) ∧ isQuotaError (e m) = true)
    (hlast : fn last = Except.ok r) :
    tryModels (init ++ [last]) fn = (.success r last, init ++ [last]) := by
  unfold tryModels
  refine tryModelsGo_skip_then_ok fn e init last r ?_ hlast []
  intro m hm
  obtain ⟨h1, h2⟩ := hinit m hm
  exact ⟨h1, by simp [h2]⟩

/-- Witness for C1 at a two-candidate list. -/
theorem claim_C1_witness :
    tryModels ["a", "b"] opC1 = (.success "R" "b", ["a", "b"]) :=
  claim_C1_quota_prefix_success_last ["a"] "b" opC1 (fun _ => "429 rate limited") "R"
    (by intro m hm
        have hx : m = "a" := by simpa using hm
        subst hx
        exact ⟨rfl, by decide⟩)
    rfl

/-- Claim C2: if the first candidate fails with an error classified fatal
(neither quota nor not-found), the cascade rethrows that exact message and
the operation is invoked exactly once (trace is just the first candidate);
no later candidate is attempted. -/
theorem claim_C2_fatal_first_aborts {α : Type} (m : String) (rest : List String)
    (fn : String → Except String α) (msg : String)
    (h1 : fn m = Except.error msg) (h2 : isQuotaError msg = false)
    (h3 : isNotFoundError msg = false) :
    tryModels (m :: rest) fn = (.fatal msg, [m]) := by
  unfold tryModels
  simp [tryModelsGo, h1, h2, h3]

/-- Witness for C2 at a two-candidate list. -/
theorem claim_C2_witness :
    tryModels ["m1", "m2"] opC2 = (.fatal "invalid request schema", ["m1"]) :=
  claim_C2_fatal_first_aborts "m1" ["m2"] opC2 "invalid request schema" rfl
    (by decide) (by decide)

/-- Counterexample to Claim C3 as stated: with candidates ["m1", "m2"] both
failing with "RESOURCE_EXHAUSTED", the message is classified transient-quota
(so the candidates are skipped), yet the aggregate message records both
candidates with the reason "not found" — it nowhere contains the
transient-quota reason "quota exceeded", because the recorded reason is
chosen by `message.includes('429')` alone. -/
theorem claim_C3_counterexample :
    classify "RESOURCE_EXHAUSTED" = FailureClassification.transientQuota ∧
    (tryModels ["m1", "m2"] opC3).1 =
      CascadeOutcome.exhausted (aggregateMessage ["m1: not found", "m2: not found"]) ∧
    jsIncludes (aggregateMessage ["m1: not found", "m2: not found"]) "quota exceeded"
      = false := by
  refine ⟨by decide, by decide, by decide⟩

/-- Claim C3 as amended: when every candidate fails with a skippable
(quota or not-found) error, the cascade fails with the aggregate error whose
detail enumerates all N candidates in original list order — but each
candidate's recorded reason is "quota exceeded" only when its error message
contains "429", and "not found" otherwise (so two "RESOURCE_EXHAUSTED"
failures are listed with reason "not found", not with a transient-quota
reason). -/
theorem claim_C3_amended_exhausted_enumerates {α : Type} (ms : List String)
    (fn : String → Except String α) (e : String → String)
    (h : ∀ m ∈ ms, fn m = Except.error (e m) ∧
      (isQuotaError (e m) = true ∨ isNotFoundError (e m) = true)) :
    tryModels ms fn =
      (.exhausted (aggregateMessage
          (ms.map (fun m => m ++ ": " ++ recordedReason (e m)))), ms) := by
  unfold tryModels
  have hall : ∀ m ∈ ms, fn m = Except.error (e m) ∧
      (isQuotaError (e m) || isNotFoundError (e m)) = true := by
    intro m hm
    obtain ⟨h1, h2⟩ := h m hm
    refine ⟨h1, ?_⟩
    rcases h2 with h2 | h2 <;> simp [h2]
  simpa using tryModelsGo_all_skip fn e ms hall []

/-- Witness for the amended C3 at the RESOURCE_EXHAUSTED scenario. -/
theorem claim_C3_witness :
    tryModels ["m1", "m2"] opC3 =
      (CascadeOutcome.exhausted (aggregateMessage ["m1: not found", "m2: not found"]),
       ["m1", "m2"]) :=
  claim_C3_amended_exhausted_enumerates ["m1", "m2"] opC3
    (fun _ => "RESOURCE_EXHAUSTED")
    (by intro m _
        refine ⟨rfl, Or.inl ?_⟩
        show isQuotaError "RESOURCE_EXHAUSTED" = true
        decide)

/-- Counterexample to Claim C4 as stated: "too many requests" (lowercase)
is classified fatal, not transient-quota — the source checks the
case-sensitive substring "Too Many"; "Not Found" (capitalised) is classified
fatal, not not-found — the source checks the lowercase substring
"not found"; and "quota limit hit 404" contains a 404 indicator yet is
classified transient-quota, contradicting "not-found exactly when the
message contains a 404 indicator". -/
theorem claim_C4_counterexample :
    classify "too many requests" = FailureClassification.fatal ∧
    classify "Not Found" = FailureClassification.fatal ∧
    classify "quota limit hit 404" = FailureClassification.transientQuota := by
  refine ⟨by decide, by decide, by decide⟩

/-- Claim C4 as amended: classification is transient-quota exactly when the
message contains "429", the exact-case phrase "Too Many", the lowercase word
"quota", or the marker "RESOURCE_EXHAUSTED"; it is not-found exactly when it
matches none of the quota markers and contains "404" or the lowercase phrase
"not found"; it is fatal exactly when it matches none of the markers. -/
theorem claim_C4_amended_classification_markers (msg : String) :
    (classify msg = FailureClassification.transientQuota ↔
      (jsIncludes msg "429" = true ∨ jsIncludes msg "Too Many" = true ∨
        jsIncludes msg "quota" = true ∨ jsIncludes msg "RESOURCE_EXHAUSTED" = true)) ∧
    (classify msg = FailureClassification.notFound ↔
      (¬(jsIncludes msg "429" = true ∨ jsIncludes msg "Too Many" = true ∨
          jsIncludes msg "quota" = true ∨ jsIncludes msg "RESOURCE_EXHAUSTED" = true) ∧
        (jsIncludes msg "404" = true ∨ jsIncludes msg "not found" = true))) ∧
    (classify msg = FailureClassification.fatal ↔
      (¬(jsIncludes msg "429" = true ∨ jsIncludes msg "Too Many" = true ∨
          jsIncludes msg "quota" = true ∨ jsIncludes msg "RESOURCE_EXHAUSTED" = true) ∧
        ¬(jsIncludes msg "404" = true ∨ jsIncludes msg "not found" = true))) := by
  refine ⟨?_, ?_, ?_⟩
  · rw [classify_eq_transientQuota]
    unfold isQuotaError
    simp [Bool.or_eq_true, or_assoc]
  · rw [classify_eq_notFound]
    unfold isQuotaError isNotFoundError
    simp [Bool.or_eq_true, or_assoc, Bool.or_eq_false_iff,
      Bool.not_eq_true, not_or]
    tauto
  · rw [classify_eq_fatal]
    unfold isQuotaError isNotFoundError
    simp [Bool.or_eq_true, or_assoc, Bool.or_eq_false_iff,
      Bool.not_eq_true, not_or]
    tauto

/-- Claim C5: every cascade invocation has exactly one outcome — a success,
a fatal rethrow, or an aggregate failure: at least one of the three holds,
no two hold together, the aggregate failure arises only when the whole
candidate list was consumed with every candidate failing skippably, and a
fatal abort carries exactly the operation's own error message (no aggregate
detail). -/
theorem claim_C5_outcome_trichotomy {α : Type} (models : List String)
    (fn : String → Except String α) :
    ((∃ r m, (tryModels models fn).1 = CascadeOutcome.success r m) ∨
      (∃ msg, (tryModels models fn).1 = CascadeOutcome.fatal msg) ∨
      (∃ msg, (tryModels models fn).1 = CascadeOutcome.exhausted msg)) ∧
    (∀ r m msg, (tryModels models fn).1 = CascadeOutcome.success r m →
      (tryModels models fn).1 ≠ CascadeOutcome.exhausted msg) ∧
    (∀ r m msg, (tryModels models fn).1 = CascadeOutcome.success r m →
      (tryModels models fn).1 ≠ CascadeOutcome.fatal msg) ∧
    (∀ msg msg', (tryModels models fn).1 = CascadeOutcome.fatal msg →
      (tryModels models fn).1 ≠ CascadeOutcome.exhausted msg') ∧
    (∀ msg, (tryModels models fn).1 = CascadeOutcome.exhausted msg →
      (tryModels models fn).2 = models ∧
      ∀ m ∈ models, ∃ s, fn m = Except.error s ∧
        (isQuotaError s || isNotFoundError s) = true) ∧
    (∀ msg, (tryModels models fn).1 = CascadeOutcome.fatal msg →
      ∃ m ∈ models, fn m = Except.error msg ∧
        isQuotaError msg = false ∧ isNotFoundError msg = false) := by
  unfold tryModels
  refine ⟨?_, ?_, ?_, ?_,
    fun msg h => tryModelsGo_exhausted_inv fn models [] msg h,
    fun msg h => tryModelsGo_fatal_inv fn models [] msg h⟩
  · cases h : (tryModelsGo fn models []).1 with
    | success r m => exact Or.inl ⟨r, m, rfl⟩
    | fatal msg => exact Or.inr (Or.inl ⟨msg, rfl⟩)
    | exhausted msg => exact Or.inr (Or.inr ⟨msg, rfl⟩)
  · intro r m msg h1 h2; rw [h1] at h2; exact absurd h2 (by simp)
  · intro r m msg h1 h2; rw [h1] at h2; exact absurd h2 (by simp)
  · intro msg msg' h1 h2; rw [h1] at h2; exact absurd h2 (by simp)

/-- Witness for C5: with a single candidate failing on a plain 429 message,
the exhausted case's characterization is obtained from the theorem. -/
theorem claim_C5_witness :
    (tryModels ["m1"] opC5).2 = ["m1"] ∧
    ∀ m ∈ ["m1"], ∃ s, opC5 m = Except.error s ∧
      (isQuotaError s || isNotFoundError s) = true :=
  (claim_C5_outcome_trichotomy ["m1"] opC5).2.2.2.2.1
    (aggregateMessage ["m1: quota exceeded"]) (by decide)

/-- Claim C6: the cascade invokes the operation on a prefix of the candidate
list — so candidates are attempted strictly in list order, each list entry
at most once, and a candidate is never retried after failing. -/
theorem claim_C6_trace_prefix_once {α : Type} (models : List String)
    (fn : String → Except String α) :
    (∃ t, models = (tryModels models fn).2 ++ t) ∧
    ∀ m : String, (tryModels models fn).2.count m ≤ models.count m := by
  unfold tryModels
  obtain ⟨t, ht⟩ := tryModelsGo_trace_prefix fn models []
  refine ⟨⟨t, ht⟩, fun m => ?_⟩
  have h2 : models.count m = (tryModelsGo fn models []).2.count m + t.count m := by
    conv_lhs => rw [ht]
    exact List.count_append _ _ _
  omega

/-- Counterexample to Claim C7 as stated: "quota exceeded" contains neither
"429" nor "404" nor "not found", so by the claim it should classify fatal,
yet the code classifies it transient-quota; and "quota limit 404" contains
"404" and no "429", so by the claim it should classify not-found, yet the
code classifies it transient-quota. -/
theorem claim_C7_counterexample :
    classify "quota exceeded" = FailureClassification.transientQuota ∧
    classify "quota limit 404" = FailureClassification.transientQuota := by
  refine ⟨by decide, by decide⟩

/-- Claim C7 as amended: classification is a pure, deterministic function of
the message text; a message containing "429" classifies transient-quota; a
message matching none of the four quota markers but containing "404" or
"not found" classifies not-found; a message matching none of the quota or
not-found markers classifies fatal. -/
theorem claim_C7_amended_deterministic_rules (msg₁ msg₂ : String)
    (heq : msg₁ = msg₂) :
    classify msg₁ = classify msg₂ ∧
    (jsIncludes msg₁ "429" = true →
      classify msg₁ = FailureClassification.transientQuota) ∧
    (isQuotaError msg₁ = false →
      (jsIncludes msg₁ "404" = true ∨ jsIncludes msg₁ "not found" = true) →
      classify msg₁ = FailureClassification.notFound) ∧
    (isQuotaError msg₁ = false → isNotFoundError msg₁ = false →
      classify msg₁ = FailureClassification.fatal) := by
  refine ⟨by rw [heq], ?_, ?_, ?_⟩
  · intro h
    rw [classify_eq_transientQuota]
    unfold isQuotaError
    simp [h]
  · intro h1 h2
    rw [classify_eq_notFound]
    refine ⟨h1, ?_⟩
    unfold isNotFoundError
    rcases h2 with h | h <;> simp [h]
  · intro h1 h2
    rw [classify_eq_fatal]
    exact ⟨h1, h2⟩

/-- Witness for the amended C7 at a not-found message. -/
theorem claim_C7_witness :
    classify "model xyz not found" = FailureClassification.notFound :=
  (claim_C7_amended_deterministic_rules "model xyz not found" "model xyz not found"
    rfl).2.2.1 (by decide) (Or.inr (by decide))

/-- Claim C8: a message matching both the quota markers and the not-found
markers is classified transient-quota — the quota check runs first — and a
candidate failing with such a message is skipped: the cascade goes on to
invoke the operation on the remaining candidates exactly as it would have
from them. -/
theorem claim_C8_quota_precedence (msg : String)
    (h1 : isQuotaError msg = true) (h2 : isNotFoundError msg = true) :
    classify msg = FailureClassification.transientQuota ∧
    ∀ (α : Type) (m : String) (rest : List String)
      (fn : String → Except String α), fn m = Except.error msg →
      (tryModels (m :: rest) fn).2 = m :: (tryModels rest fn).2 := by
  refine ⟨(classify_eq_transientQuota msg).mpr h1, ?_⟩
  intro α m rest fn hm
  unfold tryModels
  rw [tryModelsGo_cons_skip fn m rest [] msg hm (by simp [h1])]
  exact congrArg (List.cons m) (tryModelsGo_trace_congr fn rest _ _)

/-- Witness for C8 at a message carrying both "quota" and "404". -/
theorem claim_C8_witness :
    (tryModels ["m1", "m2"] opC8).2 = "m1" :: (tryModels ["m2"] opC8).2 :=
  (claim_C8_quota_precedence "quota: model not found (404)" (by decide)
    (by decide)).2 String "m1" ["m2"] opC8 rfl

/-- Claim C9: for a valid chatbot request (non-blank message of at most 1000
characters), whenever the Gemini-backed call fails — configuration error,
fatal mid-cascade abort, or cascade exhaustion — the endpoint still answers
with HTTP 200, success true, the rule-based reply for the message, and
engine "rule-based"; the failure is never surfaced to the HTTP caller. -/
theorem claim_C9_fallback_on_gemini_failure (message : String)
    (key : Option String) (fn : String → Except String String) (e : String)
    (hmsg : ¬jsTrim message = "") (hlen : message.length ≤ 1000)
    (hfail : (getChatbotResponse key fn).1 = GeminiOutcome.configError e ∨
      (getChatbotResponse key fn).1 = GeminiOutcome.fatal e ∨
      (getChatbotResponse key fn).1 = GeminiOutcome.exhausted e) :
    chatbotHandler message key fn =
      { status := 200, success := true, error := none,
        reply := getRuleBasedResponse message, engine := some "rule-based" } := by
  unfold chatbotHandler
  rw [if_neg hmsg, if_neg (by omega : ¬message.length > 1000)]
  by_cases hk : geminiKeyConfigured key = true
  · rw [if_pos hk]
    rcases hgc : getChatbotResponse key fn with ⟨out, tr⟩
    rw [hgc] at hfail
    cases out with
    | success r m => simp at hfail
    | configError s => rfl
    | fatal s => rfl
    | exhausted s => rfl
  · rw [if_neg hk]

/-- Witness for C9: a configured key, the message "hello", and an operation
whose failure is fatal on the very first model. -/
theorem claim_C9_witness :
    chatbotHandler "hello" (some "K") opC9 =
      { status := 200, success := true, error := none,
        reply := getRuleBasedResponse "hello", engine := some "rule-based" } :=
  claim_C9_fallback_on_gemini_failure "hello" (some "K") opC9 "bad"
    (by decide) (by decide) (Or.inr (Or.inl rfl))

/-- Claim C10: when the Gemini API key is absent or equals the placeholder,
both `analyzeCTScan` and `getChatbotResponse` fail with their configuration
error before the cascade: the outcome is the configuration error and the
operation's invocation trace is empty (it is invoked zero times). -/
theorem claim_C10_missing_key_no_cascade (key : Option String)
    (h : key = none ∨ key = some "YOUR_GEMINI_API_KEY_HERE") :
    ∀ (α β : Type) (fnV : String → Except String α)
      (fnC : String → Except String β),
      analyzeCTScan key fnV = (GeminiOutcome.configError visionConfigErrorMsg, []) ∧
      getChatbotResponse key fnC =
        (GeminiOutcome.configError chatbotConfigErrorMsg, []) := by
  intro α β fnV fnC
  have hk : geminiKeyConfigured key = false := by
    rcases h with h | h <;> subst h <;> rfl
  constructor <;> simp [analyzeCTScan, getChatbotResponse, hk]

/-- Witness for C10 at the placeholder key, with operations that would
succeed if the cascade were ever entered. -/
theorem claim_C10_witness :
    analyzeCTScan (some "YOUR_GEMINI_API_KEY_HERE") opC10v =
      (GeminiOutcome.configError visionConfigErrorMsg, []) ∧
    getChatbotResponse (some "YOUR_GEMINI_API_KEY_HERE") opC10c =
      (GeminiOutcome.configError chatbotConfigErrorMsg, []) :=
  claim_C10_missing_key_no_cascade (some "YOUR_GEMINI_API_KEY_HERE")
    (Or.inr rfl) String String opC10v opC10c

end PulmoAI
